import Mathlib

/-!
Verification of the concurrent crawl-orchestration layer of goSpider
(`goSpider.go`): the bounded worker pool `ParallelRequests`, its input
streamer `streamInputs`, and the iterative re-crawl loop
`EvaluateParallelRequests`.

Shallow-embedding conventions:
* `Request` and `PageSource` are translated field-for-field; the `*html.Node`
  payload is opaque to the orchestration layer and is modelled by a type
  parameter `α`, with `Option α` standing for a possibly-nil pointer.
* Go `error` values are modelled as `Option String` (`none` = nil).
* The crawl function `func(string) (*html.Node, error)` becomes
  `String → Option α × Option String`.
* Concurrency: with `numberOfWorkers ≥ 1`, every request sent by
  `streamInputs` is pulled by exactly one worker, each pulled request yields
  exactly one `PageSource` sent to the buffered result channel, and the
  collector drains them in some scheduler-dependent order.  The
  nondeterministic order in which results reach the collector is captured by
  an explicit parameter `arrival`; every real execution corresponds to some
  `arrival` with `arrival.Perm requests`.  With `numberOfWorkers ≤ 0` the
  `for i := 0; i < numberOfWorkers` loop starts no workers, `wg.Wait()`
  returns at once, the result channel closes empty, and the feeder goroutine
  is stopped by the deferred `close(done)`.
* `time.Duration` delays only `time.Sleep`; they are carried as a `Nat`
  parameter with no semantic effect.
* The `for {}` loop of `EvaluateParallelRequests` need not terminate, so the
  embedding is fuel-indexed: `none` means the loop is still running after
  `fuel` iterations.  `sched n rs` gives the collector arrival order of the
  n-th re-crawl dispatch.
-/

namespace GoSpider

/-- `Request` structure from goSpider.go: holds the user data
(`SearchString`). -/
structure Request where
  searchString : String
deriving DecidableEq, Repr

/-- `PageSource` structure from goSpider.go: the (possibly nil) HTML payload
`Page`, the echo `Request` of the originating request's search string, and
the per-request `Error` (`none` = nil). -/
structure PageSource (α : Type) where
  page : Option α
  request : String
  error : Option String
deriving DecidableEq, Repr

/-- The body a worker runs for one request pulled from the input channel:
`pageSource, err := crawlerFunc(req.SearchString)` wrapped into a
`PageSource{Page: pageSource, Request: req.SearchString, Error: err}`. -/
def runRequest (crawlerFunc : String → Option α × Option String)
    (req : Request) : PageSource α :=
  ⟨(crawlerFunc req.searchString).1, req.searchString,
    (crawlerFunc req.searchString).2⟩

/-- The collector loop of `ParallelRequests`: ranges over the result channel
in arrival order, appends every result to `results`, and overwrites
`errorOnApiRequests` whenever a result carries a non-nil error. -/
def collectLoop (arrived : List (PageSource α)) :
    List (PageSource α) × Option String :=
  arrived.foldl
    (fun acc result =>
      (acc.1 ++ [result],
        if result.error.isSome then result.error else acc.2))
    ([], none)

/-- Shallow embedding of `ParallelRequests(requests, numberOfWorkers, delay,
crawlerFunc)`.  `arrival` is the scheduler-chosen order in which the workers'
results reach the collector; a real run with at least one worker processes
every streamed request exactly once, so `arrival.Perm requests` holds for
the `arrival` of any real execution.  With `numberOfWorkers ≤ 0` no worker
goroutine starts, so the collector sees a closed empty channel and returns
nil results and a nil error. -/
def ParallelRequests (requests : List Request) (numberOfWorkers : Int)
    (delay : Nat) (crawlerFunc : String → Option α × Option String)
    (arrival : List Request) : List (PageSource α) × Option String :=
  if numberOfWorkers ≤ 0 then ([], none)
  else collectLoop (arrival.map (runRequest crawlerFunc))

/-- The list of arguments passed to `crawlerFunc` during one
`ParallelRequests` call, in collector-arrival order: each worker invokes
`crawlerFunc(req.SearchString)` exactly once per request it pulls from the
channel produced by `streamInputs`, and no worker runs when
`numberOfWorkers ≤ 0`. -/
def crawlCalls (requests : List Request) (numberOfWorkers : Int)
    (arrival : List Request) : List String :=
  if numberOfWorkers ≤ 0 then [] else arrival.map Request.searchString

/-- The last non-nil error of a list of per-request error values, `none`
when every entry is `none`.  This is the spec's description of the
aggregate-error rule ("the last non-nil error observed — later errors
overwrite earlier ones"); `collectLoop_snd` proves the collector loop
computes exactly this. -/
def lastNonNilError (errs : List (Option String)) : Option String :=
  (errs.reverse.find? Option.isSome).join

/-- Shallow embedding of `EvaluateParallelRequests(previousResults,
crawlerFunc, evaluate)`, fuel-indexed because the Go `for {}` loop need not
terminate.  Per iteration: `e.1` is `problematicPageSources`, `e.2` is
`newResults`; when `e.1` is empty the loop returns `(newResults, nil)`;
otherwise it dispatches `e.1` through `ParallelRequests` with 10 workers and
zero delay (`pr.1` = `temporaryResults`, `pr.2` = the aggregate error); a
non-nil aggregate error aborts with `(nil, wrapped error)`; otherwise the
next working set is `newResults` with every temporary result appended. -/
def EvaluateParallelRequests : Nat → (Nat → List Request → List Request) →
    (String → Option α × Option String) →
    (List (PageSource α) → List Request × List (PageSource α)) →
    List (PageSource α) → Option (List (PageSource α) × Option String)
  | 0, _, _, _, _ => none
  | fuel + 1, sched, crawlerFunc, evaluate, previousResults =>
    let e := evaluate previousResults
    if e.1.isEmpty then some (e.2, none)
    else
      let pr := ParallelRequests e.1 10 0 crawlerFunc (sched 0 e.1)
      match pr.2 with
      | some err =>
          some ([], some ("failed to crawl page sources, error: " ++ err))
      | none =>
          EvaluateParallelRequests fuel (fun n => sched (n + 1)) crawlerFunc
            evaluate (e.2 ++ pr.1)

/-- The list of arguments passed to `crawlerFunc` across the iterations of
`EvaluateParallelRequests`, mirroring the loop structure of
`EvaluateParallelRequests` exactly. -/
def evaluateCrawlCalls : Nat → (Nat → List Request → List Request) →
    (String → Option α × Option String) →
    (List (PageSource α) → List Request × List (PageSource α)) →
    List (PageSource α) → List String
  | 0, _, _, _, _ => []
  | fuel + 1, sched, crawlerFunc, evaluate, previousResults =>
    let e := evaluate previousResults
    if e.1.isEmpty then []
    else
      let pr := ParallelRequests e.1 10 0 crawlerFunc (sched 0 e.1)
      crawlCalls e.1 10 (sched 0 e.1) ++
        match pr.2 with
        | some _ => []
        | none =>
            evaluateCrawlCalls fuel (fun n => sched (n + 1)) crawlerFunc
              evaluate (e.2 ++ pr.1)

/-! Basic lemmas about the collector loop. -/

theorem collectLoop_go (l : List (PageSource α)) (acc : List (PageSource α))
    (err : Option String) :
    l.foldl
      (fun acc result =>
        (acc.1 ++ [result],
          if result.error.isSome then result.error else acc.2))
      (acc, err)
      = (acc ++ l,
          (l.map PageSource.error).foldl
            (fun a e => if e.isSome then e else a) err) := by
  induction l generalizing acc err with
  | nil => simp
  | cons r t ih =>
      simp only [List.foldl_cons, List.map_cons, ih]
      simp

/-- The collector returns every arrived result, in arrival order. -/
theorem collectLoop_fst (l : List (PageSource α)) : (collectLoop l).1 = l := by
  unfold collectLoop
  rw [collectLoop_go]
  simp

theorem foldl_overwrite_eq_lastNonNil (errs : List (Option String))
    (init : Option String) :
    errs.foldl (fun a e => if e.isSome then e else a) init
      = (errs.reverse.find? Option.isSome).getD init := by
  induction errs generalizing init with
  | nil => simp
  | cons e t ih =>
      simp only [List.foldl_cons, List.reverse_cons, List.find?_append, ih]
      cases hfind : t.reverse.find? Option.isSome with
      | some x =>
          have hx : x.isSome := List.find?_some hfind
          cases x with
          | none => simp at hx
          | some s => simp [Option.or, hfind]
      | none =>
          cases e with
          | none => simp [hfind]
          | some s => simp [hfind]

/-- The collector's aggregate error is the last non-nil per-result error. -/
theorem collectLoop_snd (l : List (PageSource α)) :
    (collectLoop l).2 = lastNonNilError (l.map PageSource.error) := by
  unfold collectLoop lastNonNilError
  rw [collectLoop_go, foldl_overwrite_eq_lastNonNil]
  cases (l.map PageSource.error).reverse.find? Option.isSome <;> simp

/-- With at least one worker, `ParallelRequests` returns exactly the arrived
results, which are the input requests run through the worker body in
arrival order. -/
theorem ParallelRequests_fst (requests : List Request)
    (numberOfWorkers : Int) (delay : Nat)
    (crawlerFunc : String → Option α × Option String)
    (arrival : List Request) (hw : 1 ≤ numberOfWorkers) :
    (ParallelRequests requests numberOfWorkers delay crawlerFunc arrival).1
      = arrival.map (runRequest crawlerFunc) := by
  unfold ParallelRequests
  rw [if_neg (by omega)]
  exact collectLoop_fst _

/-- C1 (as stated) is false: the claim quantifies over every worker count,
but with one request and worker count 0 the pool starts no workers and
returns 0 results, not 1. -/
theorem C1_counterexample :
    ¬ ((ParallelRequests [⟨"a"⟩] 0 0
        (fun _ => ((none : Option Nat), none)) []).1.length = 1) := by
  decide

/-- C1 (amended): for every list of N ≥ 0 requests, every worker count ≥ 1,
every delay, and every crawl function, `ParallelRequests` returns exactly N
results, one per input request, regardless of how many crawl calls return
errors (the crawl function is arbitrary, so in particular every call may
error). -/
theorem C1_cardinality (requests : List Request) (numberOfWorkers : Int)
    (delay : Nat) (crawlerFunc : String → Option α × Option String)
    (arrival : List Request) (hw : 1 ≤ numberOfWorkers)
    (ha : arrival.Perm requests) :
    (ParallelRequests requests numberOfWorkers delay crawlerFunc
      arrival).1.length = requests.length := by
  rw [ParallelRequests_fst requests numberOfWorkers delay crawlerFunc arrival
    hw, List.length_map, ha.length_eq]

theorem C1_cardinality_witness :
    (ParallelRequests [⟨"a"⟩, ⟨"b"⟩] 2 5
        (fun s => ((none : Option Nat), some s)) [⟨"b"⟩, ⟨"a"⟩]).1.length
      = ([⟨"a"⟩, ⟨"b"⟩] : List Request).length :=
  C1_cardinality [⟨"a"⟩, ⟨"b"⟩] 2 5 (fun s => ((none : Option Nat), some s))
    [⟨"b"⟩, ⟨"a"⟩] (by decide) (by decide)

/-- C2: every dispatched request yields a result whose `request` field echoes
its search string and whose `error` field is exactly the crawl function's
error for it (nil on success); failing requests never remove other requests'
results (each input request keeps its own result no matter what the crawl
function returns elsewhere); and for any two worker counts ≥ 1, any delays,
and any schedules, the two result collections are permutations of each
other, hence carry the same multiset of identifying fields. -/
theorem C2_per_request_results (requests : List Request)
    (numberOfWorkers : Int) (delay : Nat)
    (crawlerFunc : String → Option α × Option String)
    (arrival : List Request) (hw : 1 ≤ numberOfWorkers)
    (ha : arrival.Perm requests) :
    (∀ req ∈ requests,
      ∃ r ∈ (ParallelRequests requests numberOfWorkers delay crawlerFunc
          arrival).1,
        r.request = req.searchString
          ∧ r.error = (crawlerFunc req.searchString).2)
    ∧ ∀ (numberOfWorkers₂ : Int) (delay₂ : Nat) (arrival₂ : List Request),
        1 ≤ numberOfWorkers₂ → arrival₂.Perm requests →
        ((ParallelRequests requests numberOfWorkers delay crawlerFunc
            arrival).1).Perm
          ((ParallelRequests requests numberOfWorkers₂ delay₂ crawlerFunc
            arrival₂).1) := by
  constructor
  · intro req hreq
    refine ⟨runRequest crawlerFunc req, ?_, rfl, rfl⟩
    rw [ParallelRequests_fst _ _ _ _ _ hw]
    exact List.mem_map.mpr ⟨req, ha.mem_iff.mpr hreq, rfl⟩
  · intro numberOfWorkers₂ delay₂ arrival₂ hw₂ ha₂
    rw [ParallelRequests_fst _ _ _ _ _ hw,
      ParallelRequests_fst _ _ _ _ _ hw₂]
    exact (ha.trans ha₂.symm).map _

theorem C2_per_request_results_witness :
    ((ParallelRequests [⟨"a"⟩, ⟨"b"⟩] 1 0
        (fun s => ((none : Option Nat),
          if s = "a" then some "boom" else none)) [⟨"a"⟩, ⟨"b"⟩]).1).Perm
      ((ParallelRequests [⟨"a"⟩, ⟨"b"⟩] 5 7
        (fun s => ((none : Option Nat),
          if s = "a" then some "boom" else none)) [⟨"b"⟩, ⟨"a"⟩]).1) :=
  (C2_per_request_results [⟨"a"⟩, ⟨"b"⟩] 1 0
      (fun s => ((none : Option Nat), if s = "a" then some "boom" else none))
      [⟨"a"⟩, ⟨"b"⟩] (by decide) (by decide)).2 5 7 [⟨"b"⟩, ⟨"a"⟩]
    (by decide) (by decide)

/-- C3: the aggregate error of `ParallelRequests` is the last non-nil
per-request error in collector-arrival order (later errors overwrite earlier
ones); the complete result collection is returned no matter what the errors
are; and when no crawl call errors, the aggregate error is nil. -/
theorem C3_last_error_wins (requests : List Request) (numberOfWorkers : Int)
    (delay : Nat) (crawlerFunc : String → Option α × Option String)
    (arrival : List Request) (hw : 1 ≤ numberOfWorkers)
    (ha : arrival.Perm requests) :
    (ParallelRequests requests numberOfWorkers delay crawlerFunc arrival).2
        = lastNonNilError
            (((ParallelRequests requests numberOfWorkers delay crawlerFunc
              arrival).1).map PageSource.error)
    ∧ (ParallelRequests requests numberOfWorkers delay crawlerFunc arrival).1
        = arrival.map (runRequest crawlerFunc)
    ∧ ((∀ req ∈ requests, (crawlerFunc req.searchString).2 = none) →
        (ParallelRequests requests numberOfWorkers delay crawlerFunc
          arrival).2 = none) := by
  have hfst :
      (ParallelRequests requests numberOfWorkers delay crawlerFunc arrival).1
        = arrival.map (runRequest crawlerFunc) :=
    ParallelRequests_fst _ _ _ _ _ hw
  have hsnd :
      (ParallelRequests requests numberOfWorkers delay crawlerFunc arrival).2
        = lastNonNilError
            ((arrival.map (runRequest crawlerFunc)).map PageSource.error) := by
    unfold ParallelRequests
    rw [if_neg (by omega)]
    exact collectLoop_snd _
  refine ⟨by rw [hfst, hsnd], hfst, fun hnone => ?_⟩
  rw [hsnd]
  unfold lastNonNilError
  have hfind :
      ((arrival.map (runRequest crawlerFunc)).map
        PageSource.error).reverse.find? Option.isSome = none := by
    rw [List.find?_eq_none]
    intro x hx
    rw [List.mem_reverse, List.map_map, List.mem_map] at hx
    obtain ⟨req, hreq, hx⟩ := hx
    have : x = none := by
      rw [← hx]
      exact hnone req (ha.mem_iff.mp hreq)
    simp [this]
  rw [hfind]
  rfl

theorem C3_last_error_wins_witness :
    (ParallelRequests [⟨"a"⟩, ⟨"b"⟩] 1 0
        (fun s => ((none : Option Nat), some ("err " ++ s)))
        [⟨"a"⟩, ⟨"b"⟩]).2
      = lastNonNilError
          (((ParallelRequests [⟨"a"⟩, ⟨"b"⟩] 1 0
            (fun s => ((none : Option Nat), some ("err " ++ s)))
            [⟨"a"⟩, ⟨"b"⟩]).1).map PageSource.error) :=
  (C3_last_error_wins [⟨"a"⟩, ⟨"b"⟩] 1 0
      (fun s => ((none : Option Nat), some ("err " ++ s))) [⟨"a"⟩, ⟨"b"⟩]
      (by decide) (by decide)).1

/-- C7: with at least one worker, each request value of the input list is
passed to the crawl function exactly once per `ParallelRequests` call: the
list of crawl-call arguments is a permutation of the input search strings,
so each occurrence is dispatched exactly once — none twice, none skipped. -/
theorem C7_each_request_once (requests : List Request)
    (numberOfWorkers : Int) (arrival : List Request)
    (hw : 1 ≤ numberOfWorkers) (ha : arrival.Perm requests) :
    (crawlCalls requests numberOfWorkers arrival).Perm
        (requests.map Request.searchString)
    ∧ ∀ s : String,
        (crawlCalls requests numberOfWorkers arrival).count s
          = (requests.map Request.searchString).count s := by
  have hperm : (crawlCalls requests numberOfWorkers arrival).Perm
      (requests.map Request.searchString) := by
    unfold crawlCalls
    rw [if_neg (by omega)]
    exact ha.map _
  exact ⟨hperm, fun s => hperm.count_eq s⟩

theorem C7_each_request_once_witness :
    (crawlCalls [⟨"a"⟩, ⟨"b"⟩] 2 [⟨"b"⟩, ⟨"a"⟩]).count "a"
      = (([⟨"a"⟩, ⟨"b"⟩] : List Request).map Request.searchString).count "a" :=
  (C7_each_request_once [⟨"a"⟩, ⟨"b"⟩] 2 [⟨"b"⟩, ⟨"a"⟩] (by decide)
    (by decide)).2 "a"

/-- C9: on an empty request list, `ParallelRequests` returns an empty result
collection and a nil error for every worker count and delay, and the crawl
function is never invoked. -/
theorem C9_zero_input (numberOfWorkers : Int) (delay : Nat)
    (crawlerFunc : String → Option α × Option String)
    (arrival : List Request) (ha : arrival.Perm ([] : List Request)) :
    ParallelRequests [] numberOfWorkers delay crawlerFunc arrival = ([], none)
    ∧ crawlCalls [] numberOfWorkers arrival = [] := by
  have h0 : arrival = [] := ha.eq_nil
  subst h0
  unfold ParallelRequests crawlCalls
  by_cases h : numberOfWorkers ≤ 0 <;> simp [h, collectLoop]

theorem C9_zero_input_witness :
    ParallelRequests [] 3 50 (fun _ => ((none : Option Nat), none)) []
        = ([], none)
    ∧ crawlCalls [] 3 [] = [] :=
  C9_zero_input 3 50 (fun _ => ((none : Option Nat), none)) []
    (List.Perm.refl [])

/-- C10: with a non-positive worker count, `ParallelRequests` starts no
workers, never invokes the crawl function, and returns an empty result
collection with a nil error, silently dropping every request. -/
theorem C10_nonpositive_workers (requests : List Request)
    (numberOfWorkers : Int) (delay : Nat)
    (crawlerFunc : String → Option α × Option String)
    (arrival : List Request) (hw : numberOfWorkers ≤ 0) :
    ParallelRequests requests numberOfWorkers delay crawlerFunc arrival
        = ([], none)
    ∧ crawlCalls requests numberOfWorkers arrival = [] := by
  unfold ParallelRequests crawlCalls
  rw [if_pos hw, if_pos hw]
  exact ⟨rfl, rfl⟩

theorem C10_nonpositive_workers_witness :
    ParallelRequests [⟨"a"⟩, ⟨"b"⟩] 0 0
        (fun _ => ((none : Option Nat), none)) [] = ([], none)
    ∧ crawlCalls [⟨"a"⟩, ⟨"b"⟩] 0 [] = [] :=
  C10_nonpositive_workers [⟨"a"⟩, ⟨"b"⟩] 0 0
    (fun _ => ((none : Option Nat), none)) [] (by decide)

/-! Concrete instances used by witnesses for the evaluation-loop claims, and
the C8 convergence scenario. -/

/-- A crawl function for witness runs: every call succeeds with a non-nil
page. -/
def okCrawler : String → Option Nat × Option String := fun _ => (some 1, none)

/-- A crawl function for witness runs: every call fails with the error
"boom" and a nil page. -/
def boomCrawler : String → Option Nat × Option String :=
  fun _ => (none, some "boom")

/-- An evaluation function for witness runs: every result needs a re-crawl,
keyed by its echoed request string; nothing is kept as valid. -/
def recrawlAllEval :
    List (PageSource Nat) → List Request × List (PageSource Nat) :=
  fun results => (results.map (fun r => ⟨r.request⟩), [])

/-- A schedule for witness runs: results arrive at the collector in input
order on every iteration. -/
def inOrderSched : Nat → List Request → List Request := fun _ rs => rs

/-- A one-element batch of prior results for witness runs. -/
def oneBatch : List (PageSource Nat) := [⟨none, "a", none⟩]

/-- The C8 scenario's initial batch: ten prior results (identifying strings
"0" … "9"), each carrying a nil page because its one crawl so far has not
yet been re-validated. -/
def firstPassBatch : List (PageSource Nat) :=
  (List.range 10).map (fun i => ⟨none, toString i, none⟩)

/-- The C8 evaluation function: a result is marked invalid on its first
appearance (nil page, as in `firstPassBatch`) and valid on every subsequent
appearance (a re-crawl through `okCrawler` installs a non-nil page). -/
def firstTimeInvalidEval :
    List (PageSource Nat) → List Request × List (PageSource Nat) :=
  fun results =>
    (results.filterMap
        (fun r => if r.page.isNone then some ⟨r.request⟩ else none),
      results.filter (fun r => r.page.isSome))

/-- C4: whenever `evaluate` applied to the current working set returns an
empty `needsRecrawl` slice, `EvaluateParallelRequests` returns that call's
valid slice with a nil error, and the crawl function is never invoked. -/
theorem C4_terminal_success (fuel : Nat)
    (sched : Nat → List Request → List Request)
    (crawlerFunc : String → Option α × Option String)
    (evaluate : List (PageSource α) → List Request × List (PageSource α))
    (previousResults : List (PageSource α))
    (h : (evaluate previousResults).1 = []) :
    EvaluateParallelRequests (fuel + 1) sched crawlerFunc evaluate
        previousResults = some ((evaluate previousResults).2, none)
    ∧ evaluateCrawlCalls (fuel + 1) sched crawlerFunc evaluate
        previousResults = [] := by
  constructor
  · unfold EvaluateParallelRequests
    simp [h]
  · unfold evaluateCrawlCalls
    simp [h]

theorem C4_terminal_success_witness :
    EvaluateParallelRequests 1 inOrderSched okCrawler
        (fun results => ([], results)) oneBatch = some (oneBatch, none)
    ∧ evaluateCrawlCalls 1 inOrderSched okCrawler
        (fun results => ([], results)) oneBatch = [] :=
  C4_terminal_success 0 inOrderSched okCrawler
    (fun results => ([], results)) oneBatch rfl

/-- C5: in an iteration where `evaluate` returns a non-empty `needsRecrawl`
slice and the re-dispatch reports no aggregate error, exactly the
`needsRecrawl` requests — and no others — are re-dispatched through
`ParallelRequests` with the fixed worker count 10 and zero delay, the fresh
results are exactly those requests run through the worker body, and the next
iteration's working set is the valid slice followed by the freshly
re-crawled results. -/
theorem C5_recrawl_iteration (fuel : Nat)
    (sched : Nat → List Request → List Request)
    (crawlerFunc : String → Option α × Option String)
    (evaluate : List (PageSource α) → List Request × List (PageSource α))
    (previousResults : List (PageSource α))
    (hne : (evaluate previousResults).1 ≠ [])
    (hsched : (sched 0 (evaluate previousResults).1).Perm
      (evaluate previousResults).1)
    (herr : (ParallelRequests (evaluate previousResults).1 10 0 crawlerFunc
      (sched 0 (evaluate previousResults).1)).2 = none) :
    EvaluateParallelRequests (fuel + 1) sched crawlerFunc evaluate
        previousResults
      = EvaluateParallelRequests fuel (fun n => sched (n + 1)) crawlerFunc
          evaluate
          ((evaluate previousResults).2 ++
            (ParallelRequests (evaluate previousResults).1 10 0 crawlerFunc
              (sched 0 (evaluate previousResults).1)).1)
    ∧ (ParallelRequests (evaluate previousResults).1 10 0 crawlerFunc
          (sched 0 (evaluate previousResults).1)).1
        = (sched 0 (evaluate previousResults).1).map (runRequest crawlerFunc)
    ∧ (crawlCalls (evaluate previousResults).1 10
          (sched 0 (evaluate previousResults).1)).Perm
        ((evaluate previousResults).1.map Request.searchString)
    ∧ evaluateCrawlCalls (fuel + 1) sched crawlerFunc evaluate
        previousResults
      = crawlCalls (evaluate previousResults).1 10
          (sched 0 (evaluate previousResults).1) ++
        evaluateCrawlCalls fuel (fun n => sched (n + 1)) crawlerFunc evaluate
          ((evaluate previousResults).2 ++
            (ParallelRequests (evaluate previousResults).1 10 0 crawlerFunc
              (sched 0 (evaluate previousResults).1)).1) := by
  have hE : (evaluate previousResults).1.isEmpty = false := by
    simp [List.isEmpty_iff, hne]
  refine ⟨?_, ?_, ?_, ?_⟩
  · conv_lhs => unfold EvaluateParallelRequests
    simp [hE, herr]
  · exact ParallelRequests_fst _ _ _ _ _ (by omega)
  · unfold crawlCalls
    rw [if_neg (by omega)]
    exact hsched.map _
  · conv_lhs => unfold evaluateCrawlCalls
    simp [hE, herr]

theorem C5_recrawl_iteration_witness :
    EvaluateParallelRequests 1 inOrderSched okCrawler recrawlAllEval oneBatch
      = EvaluateParallelRequests 0 (fun n => inOrderSched (n + 1)) okCrawler
          recrawlAllEval
          ((recrawlAllEval oneBatch).2 ++
            (ParallelRequests (recrawlAllEval oneBatch).1 10 0 okCrawler
              (inOrderSched 0 (recrawlAllEval oneBatch).1)).1) :=
  (C5_recrawl_iteration 0 inOrderSched okCrawler recrawlAllEval oneBatch
    (by decide) (by decide) (by decide)).1

/-- C6: if the re-crawl dispatch of an iteration returns a non-nil aggregate
error, `EvaluateParallelRequests` immediately returns a nil result
collection together with the error wrapped as "failed to crawl page sources,
error: …", discarding the valid results accumulated so far. -/
theorem C6_abort_on_dispatch_error (fuel : Nat)
    (sched : Nat → List Request → List Request)
    (crawlerFunc : String → Option α × Option String)
    (evaluate : List (PageSource α) → List Request × List (PageSource α))
    (previousResults : List (PageSource α)) (e : String)
    (hne : (evaluate previousResults).1 ≠ [])
    (herr : (ParallelRequests (evaluate previousResults).1 10 0 crawlerFunc
      (sched 0 (evaluate previousResults).1)).2 = some e) :
    EvaluateParallelRequests (fuel + 1) sched crawlerFunc evaluate
        previousResults
      = some ([], some ("failed to crawl page sources, error: " ++ e)) := by
  have hE : (evaluate previousResults).1.isEmpty = false := by
    simp [List.isEmpty_iff, hne]
  unfold EvaluateParallelRequests
  simp [hE, herr]

theorem C6_abort_on_dispatch_error_witness :
    EvaluateParallelRequests 1 inOrderSched boomCrawler recrawlAllEval
        oneBatch
      = some ([], some ("failed to crawl page sources, error: " ++ "boom")) :=
  C6_abort_on_dispatch_error 0 inOrderSched boomCrawler recrawlAllEval
    oneBatch "boom" (by decide) (by decide)

/-- C8: with an evaluation function that marks each result invalid on its
first appearance and valid on every subsequent appearance,
`EvaluateParallelRequests` over an initial batch of 10 results terminates
(two iterations of fuel suffice) and returns exactly 10 final results with a
nil error; the loop invokes the crawl function at most once per request
identifier, so counting the single pre-loop crawl that produced the batch,
each request is crawled at most twice. -/
theorem C8_recrawl_convergence :
    (EvaluateParallelRequests 2 inOrderSched okCrawler firstTimeInvalidEval
        firstPassBatch).map (fun out => (out.1.length, out.2))
      = some (10, none)
    ∧ ∀ s : String,
        (evaluateCrawlCalls 2 inOrderSched okCrawler firstTimeInvalidEval
          firstPassBatch).count s ≤ 1 := by
  constructor
  · decide
  · have htrace : evaluateCrawlCalls 2 inOrderSched okCrawler
        firstTimeInvalidEval firstPassBatch = (List.range 10).map toString :=
      by decide
    rw [htrace]
    exact List.nodup_iff_count_le_one.mp (by decide)

end GoSpider
